import Mathlib

/-!
Verification of the sandboxed preview execution core of svgappbuilder.

The subject is src/backend/app/sandbox.py, whose single function
run_preview builds a docker invocation for a static-file server, spawns it
with subprocess.Popen, and races proc.communicate against a timeout.

The embedding is stated over an explicit model of the external world the
function acts on: the container runtime's book-keeping and the local
process table.  Pure string manipulation (the command list) is translated
directly; the effects of Popen, communicate and kill are recorded as
transitions of a World record, with the docker and POSIX semantics each
transition relies on documented at the point of use.
-/

/-- Raw Python exceptions that can escape run_preview.  The function wraps
only proc.communicate in a try block, and catches only TimeoutExpired
there; subprocess.Popen itself is unprotected, and raises OSError (for
example FileNotFoundError) when the docker executable cannot be spawned. -/
inductive RawExc where
  | osError (msg : String)
deriving Repr, DecidableEq

/-- Observable behaviour of the spawned docker client process for one run:
the wall-clock time until it terminates of its own accord, the stdout and
stderr streams it produces (modelled as already-decoded strings), and its
exit status.  A runtime-level launch problem, such as an unobtainable
image, appears here as a quickly-exiting client with a non-zero exit code
and diagnostics on stderr. -/
structure ChildBehavior where
  runTime : Nat
  out : String
  err : String
  exitCode : Int
deriving Repr, DecidableEq

/-- Facts about one invocation that are decided outside the code:
whether subprocess.Popen raises (the docker executable is missing or not
spawnable), whether the host directory passed as code_dir exists and is
readable (the source never consults this), and how the spawned child
behaves. -/
structure Env where
  popenRaises : Bool
  pathExists : Bool
  child : ChildBehavior
deriving Repr, DecidableEq

/-- State of the container runtime and of the local process table,
threaded through run_preview.

runtimeInvocations counts how many times the container runtime was asked
to start an environment; invokedCmds records each issued command line.

activeEnvs is the runtime's list of active containers.  A container
started with docker run minus-minus-rm is removed by the daemon when the
containerized process exits.  Sending SIGKILL to the local docker client
(which is what proc.kill does) terminates only that client; the container
is a separate process owned by the daemon and keeps running, so it stays
on this list.

killedWithoutWait records that proc.kill was issued and no wait of any
kind followed before returning, so the client's termination, let alone the
container's removal, was never confirmed.

capturedReturncode is proc.returncode as set by a completed
proc.communicate call. -/
structure World where
  runtimeInvocations : Nat
  invokedCmds : List (List String)
  activeEnvs : List String
  killedWithoutWait : Bool
  capturedReturncode : Option Int
deriving Repr, DecidableEq

/-- World in which no environment has ever been launched. -/
def World.init : World :=
  { runtimeInvocations := 0, invokedCmds := [], activeEnvs := [],
    killedWithoutWait := false, capturedReturncode := none }

/-- The cmd list built by run_preview, verbatim from
src/backend/app/sandbox.py lines 15 to 22. -/
def buildCmd (containerName containerImage codeDir : String) : List String :=
  ["docker", "run", "--rm", "--name", containerName,
   "--network", "none",
   "-v", codeDir ++ ":/srv:ro",
   "-w", "/srv",
   containerImage,
   "npx", "http-server", "-p", "8080"]

/-- The dictionary run_preview returns, modelled as an ordered association
list from string keys to string values. -/
abbrev ResultDict := List (String × String)

/-- Key set of a returned dictionary, in order. -/
def ResultDict.keys (d : ResultDict) : List String := d.map Prod.fst

/-- Shallow embedding of run_preview (src/backend/app/sandbox.py).

The run_id drawn from uuid.uuid4 is passed in as the parameter runId,
since it comes from a random source; container_name is the literal
"svgbuilder_preview_" glued to it (lines 12 to 13).

Line 23 spawns the docker client.  If Popen raises, the exception
propagates to the caller unhandled (there is no try around line 23) and
the runtime was never contacted.  Otherwise the runtime has been invoked:
the command is recorded and the container becomes active.

Line 25: proc.communicate with the timeout.  When the client terminates
naturally within the budget, communicate returns the full captured
streams and sets proc.returncode; the client exiting means the
containerized process has exited, at which point the daemon honours the
minus-minus-rm flag and removes the container from its active list.  Line
26 returns the dictionary with keys "out" and "err" holding the decoded
streams (decoding is modelled as the identity, streams being carried as
strings).

Lines 27 to 29: when the budget expires first, communicate raises
TimeoutExpired without yielding any buffered data, the code calls
proc.kill, which SIGKILLs the docker client only, and immediately returns
the single-key dictionary.  No wait follows the kill, and the container,
unaffected by its client's death, remains active. -/
def run_preview (w : World) (env : Env) (containerImage codeDir : String)
    (timeout : Nat) (runId : String) : Except RawExc ResultDict × World :=
  let containerName := "svgbuilder_preview_" ++ runId
  let cmd := buildCmd containerName containerImage codeDir
  if env.popenRaises then
    (Except.error (RawExc.osError "docker"), w)
  else
    let w1 : World :=
      { w with runtimeInvocations := w.runtimeInvocations + 1,
               invokedCmds := w.invokedCmds ++ [cmd],
               activeEnvs := containerName :: w.activeEnvs }
    if env.child.runTime ≤ timeout then
      (Except.ok [("out", env.child.out), ("err", env.child.err)],
       { w1 with activeEnvs := w1.activeEnvs.erase containerName,
                 capturedReturncode := some env.child.exitCode })
    else
      (Except.ok [("error", "timeout")],
       { w1 with killedWithoutWait := true })

/-- Modelled from the spec: the Session Registry of section 4.1 is absent
from the source tree (no registry, admission or release code exists under
src; run_preview has no callers there).  Its active set is modelled as the
list of active session ids, and release follows the spec's words: it
"removes the session from the active set; idempotent (releasing an
already-released id is a no-op, not an error)". -/
def Registry.release (active : List String) (sid : String) : List String :=
  active.filter (fun x => x != sid)

/-- Claim C1, counterexample: a run whose child outlives the 30 second
budget returns with its container still on the runtime's active list, and
with the kill never waited on, so the environment was not torn down, let
alone confirmed gone, before run_preview returned control to the caller. -/
theorem run_preview_timeout_env_still_active :
    (run_preview World.init ⟨false, true, ⟨100, "", "", 0⟩⟩
        "node:18-alpine" "/code" 30 "deadbeef").2.activeEnvs
      = ["svgbuilder_preview_deadbeef"] ∧
    (run_preview World.init ⟨false, true, ⟨100, "", "", 0⟩⟩
        "node:18-alpine" "/code" 30 "deadbeef").2.killedWithoutWait = true :=
  ⟨rfl, rfl⟩

/-- Claim C1, amended: teardown happens only on the natural-completion
branch: when the child terminates within the budget, the environment is off
the runtime's active list before run_preview returns; when the timeout
expires first, the code kills only the local client process, never waits,
and the environment is still on the active list when run_preview returns. -/
theorem run_preview_teardown_only_on_natural_completion
    (w : World) (env : Env) (img dir rid : String) (t : Nat)
    (hp : env.popenRaises = false) :
    (env.child.runTime ≤ t →
      ((run_preview w env img dir t rid).2).activeEnvs = w.activeEnvs) ∧
    (t < env.child.runTime →
      ("svgbuilder_preview_" ++ rid) ∈ ((run_preview w env img dir t rid).2).activeEnvs ∧
        ((run_preview w env img dir t rid).2).killedWithoutWait = true) := by
  constructor
  · intro ht; simp [run_preview, hp, ht, List.erase_cons_head]
  · intro ht; simp [run_preview, hp, Nat.not_le.mpr ht]

/-- Witness for the amended C1 theorem at a concrete completed run. -/
theorem run_preview_teardown_only_on_natural_completion_witness :
    ((run_preview World.init ⟨false, true, ⟨1, "hello", "", 0⟩⟩
        "node:18-alpine" "/code" 30 "aaaaaaaa").2).activeEnvs = World.init.activeEnvs :=
  (run_preview_teardown_only_on_natural_completion World.init
      ⟨false, true, ⟨1, "hello", "", 0⟩⟩ "node:18-alpine" "/code" "aaaaaaaa" 30 rfl).1
    (by decide)

/-- Claim C2, counterexample: a run that times out while its child has
already produced output returns exactly the single pair mapping "error" to
"timeout"; neither an "out" nor an "err" key is present, so none of the
buffered output accompanies the result, and the kill is never waited on. -/
theorem run_preview_timeout_discards_buffered_output :
    (run_preview World.init ⟨false, true, ⟨100, "buffered so far", "diag", 0⟩⟩
        "node:18-alpine" "/code" 30 "deadbeef").1 = Except.ok [("error", "timeout")] ∧
    List.lookup "out" [("error", "timeout")] = none ∧
    List.lookup "err" [("error", "timeout")] = none ∧
    (run_preview World.init ⟨false, true, ⟨100, "buffered so far", "diag", 0⟩⟩
        "node:18-alpine" "/code" 30 "deadbeef").2.killedWithoutWait = true :=
  ⟨rfl, rfl, rfl, rfl⟩

/-- Claim C2, amended: when the timeout expires before the child has
terminated, run_preview issues a forceful kill to the client and
immediately returns the dictionary holding only "error" mapped to
"timeout": it does not wait for the termination to take effect and no
buffered output is included in the result. -/
theorem run_preview_timeout_error_only_no_wait
    (w : World) (env : Env) (img dir rid : String) (t : Nat)
    (hp : env.popenRaises = false) (ht : t < env.child.runTime) :
    (run_preview w env img dir t rid).1 = Except.ok [("error", "timeout")] ∧
      (run_preview w env img dir t rid).2.killedWithoutWait = true := by
  simp [run_preview, hp, Nat.not_le.mpr ht]

/-- Witness for the amended C2 theorem at a concrete timed-out run. -/
theorem run_preview_timeout_error_only_no_wait_witness :
    (run_preview World.init ⟨false, true, ⟨60, "halfway", "", 0⟩⟩
        "node:18-alpine" "/code" 30 "bbbbbbbb").1 = Except.ok [("error", "timeout")] ∧
      (run_preview World.init ⟨false, true, ⟨60, "halfway", "", 0⟩⟩
        "node:18-alpine" "/code" 30 "bbbbbbbb").2.killedWithoutWait = true :=
  run_preview_timeout_error_only_no_wait World.init ⟨false, true, ⟨60, "halfway", "", 0⟩⟩
    "node:18-alpine" "/code" "bbbbbbbb" 30 rfl (by decide)

/-- Claim C3, counterexample: a request whose asset directory does not
exist still causes exactly one container-runtime invocation and yields an
ordinary out/err result; no InvalidAssetPath rejection is produced and no
check precedes the launch. -/
theorem run_preview_missing_path_still_launches :
    (run_preview World.init ⟨false, false, ⟨1, "", "cannot GET", 1⟩⟩
        "node:18-alpine" "/does-not-exist" 30 "deadbeef").2.runtimeInvocations = 1 ∧
    (run_preview World.init ⟨false, false, ⟨1, "", "cannot GET", 1⟩⟩
        "node:18-alpine" "/does-not-exist" 30 "deadbeef").1
      = Except.ok [("out", ""), ("err", "cannot GET")] :=
  ⟨rfl, rfl⟩

/-- Claim C3, amended: run_preview performs no asset-path validation at
all: its behaviour is identical whether or not the directory exists, and
whenever the client can be spawned the container runtime is invoked
exactly once, with no InvalidAssetPath rejection anywhere. -/
theorem run_preview_ignores_path_existence
    (w : World) (env : Env) (img dir rid : String) (t : Nat) :
    run_preview w { env with pathExists := false } img dir t rid
        = run_preview w { env with pathExists := true } img dir t rid ∧
    (env.popenRaises = false →
      (run_preview w env img dir t rid).2.runtimeInvocations
        = w.runtimeInvocations + 1) := by
  refine ⟨rfl, fun hp => ?_⟩
  rcases le_or_lt env.child.runTime t with h | h
  · simp [run_preview, hp, h]
  · simp [run_preview, hp, Nat.not_le.mpr h]

/-- Witness for the amended C3 theorem at a concrete missing-path run. -/
theorem run_preview_ignores_path_existence_witness :
    (run_preview World.init ⟨false, false, ⟨1, "", "", 0⟩⟩
        "node:18-alpine" "/missing" 30 "cccccccc").2.runtimeInvocations
      = World.init.runtimeInvocations + 1 :=
  (run_preview_ignores_path_existence World.init ⟨false, false, ⟨1, "", "", 0⟩⟩
      "node:18-alpine" "/missing" "cccccccc" 30).2 rfl

/-- Claim C4, counterexample: with one environment already active (so a
ceiling of one simultaneous session is already reached), a further
long-running request is not rejected with any ConcurrencyLimitExceeded
outcome: it launches, and two environments are active at once. -/
theorem run_preview_no_concurrency_rejection :
    (run_preview
        { World.init with runtimeInvocations := 1,
                          activeEnvs := ["svgbuilder_preview_00000000"] }
        ⟨false, true, ⟨100, "", "", 0⟩⟩ "node:18-alpine" "/code" 30 "deadbeef").1
      = Except.ok [("error", "timeout")] ∧
    (run_preview
        { World.init with runtimeInvocations := 1,
                          activeEnvs := ["svgbuilder_preview_00000000"] }
        ⟨false, true, ⟨100, "", "", 0⟩⟩ "node:18-alpine" "/code" 30 "deadbeef").2.activeEnvs
      = ["svgbuilder_preview_deadbeef", "svgbuilder_preview_00000000"] :=
  ⟨rfl, rfl⟩

/-- Claim C4, amended: run_preview enforces no concurrency ceiling: it
keeps no session count, accepts every request regardless of how many
environments are already active, always invokes the runtime once more, and
has no ConcurrencyLimitExceeded outcome in its result set. -/
theorem run_preview_launches_regardless_of_load
    (w : World) (env : Env) (img dir rid : String) (t : Nat)
    (hp : env.popenRaises = false) :
    (run_preview w env img dir t rid).1.isOk = true ∧
      (run_preview w env img dir t rid).2.runtimeInvocations
        = w.runtimeInvocations + 1 := by
  rcases le_or_lt env.child.runTime t with h | h
  · simp [run_preview, hp, h, Except.isOk, Except.toBool]
  · simp [run_preview, hp, Nat.not_le.mpr h, Except.isOk, Except.toBool]

/-- Witness for the amended C4 theorem on a heavily loaded world. -/
theorem run_preview_launches_regardless_of_load_witness :
    (run_preview
        { World.init with runtimeInvocations := 7,
                          activeEnvs := ["a", "b", "c", "d", "e", "f", "g"] }
        ⟨false, true, ⟨100, "", "", 0⟩⟩ "node:18-alpine" "/code" 30 "dddddddd").1.isOk
      = true ∧
    (run_preview
        { World.init with runtimeInvocations := 7,
                          activeEnvs := ["a", "b", "c", "d", "e", "f", "g"] }
        ⟨false, true, ⟨100, "", "", 0⟩⟩ "node:18-alpine" "/code" 30 "dddddddd").2.runtimeInvocations
      = ({ World.init with runtimeInvocations := 7,
                           activeEnvs := ["a", "b", "c", "d", "e", "f", "g"] } : World).runtimeInvocations + 1 :=
  run_preview_launches_regardless_of_load
    { World.init with runtimeInvocations := 7,
                      activeEnvs := ["a", "b", "c", "d", "e", "f", "g"] }
    ⟨false, true, ⟨100, "", "", 0⟩⟩ "node:18-alpine" "/code" "dddddddd" 30 rfl

/-- Claim C5, counterexample: the issued invocation for a concrete run is
exactly the recorded command line: it mounts the directory read-only at
/srv and disables networking, but contains no user option of any form, so
nothing in it makes the process run as an unprivileged user (the image's
default user is used). -/
theorem run_preview_invocation_lacks_user_flag :
    (run_preview World.init ⟨false, true, ⟨1, "", "", 0⟩⟩
        "node:18-alpine" "/code" 30 "deadbeef").2.invokedCmds
      = [["docker", "run", "--rm", "--name", "svgbuilder_preview_deadbeef",
          "--network", "none", "-v", "/code:/srv:ro", "-w", "/srv",
          "node:18-alpine", "npx", "http-server", "-p", "8080"]] ∧
    "--user" ∉ ["docker", "run", "--rm", "--name", "svgbuilder_preview_deadbeef",
          "--network", "none", "-v", "/code:/srv:ro", "-w", "/srv",
          "node:18-alpine", "npx", "http-server", "-p", "8080"] ∧
    "-u" ∉ ["docker", "run", "--rm", "--name", "svgbuilder_preview_deadbeef",
          "--network", "none", "-v", "/code:/srv:ro", "-w", "/srv",
          "node:18-alpine", "npx", "http-server", "-p", "8080"] :=
  ⟨rfl, by decide, by decide⟩

/-- Claim C5, amended: every launched session issues exactly the fixed
invocation shape: read-only mount of the asset directory at /srv, network
disabled, working directory /srv, the given image, and the fixed serving
command npx http-server on port 8080 -- and nothing else, in particular no
option selecting an unprivileged user. -/
theorem run_preview_invocation_shape
    (w : World) (env : Env) (img dir rid : String) (t : Nat)
    (hp : env.popenRaises = false) :
    (run_preview w env img dir t rid).2.invokedCmds
      = w.invokedCmds ++
        [["docker", "run", "--rm", "--name", "svgbuilder_preview_" ++ rid,
          "--network", "none", "-v", dir ++ ":/srv:ro", "-w", "/srv",
          img, "npx", "http-server", "-p", "8080"]] := by
  rcases le_or_lt env.child.runTime t with h | h
  · simp [run_preview, buildCmd, hp, h]
  · simp [run_preview, buildCmd, hp, Nat.not_le.mpr h]

/-- Witness for the amended C5 theorem at a concrete run. -/
theorem run_preview_invocation_shape_witness :
    (run_preview World.init ⟨false, true, ⟨1, "", "", 0⟩⟩
        "node:18-alpine" "/assets" 30 "eeeeeeee").2.invokedCmds
      = World.init.invokedCmds ++
        [["docker", "run", "--rm", "--name", "svgbuilder_preview_" ++ "eeeeeeee",
          "--network", "none", "-v", "/assets" ++ ":/srv:ro", "-w", "/srv",
          "node:18-alpine", "npx", "http-server", "-p", "8080"]] :=
  run_preview_invocation_shape World.init ⟨false, true, ⟨1, "", "", 0⟩⟩
    "node:18-alpine" "/assets" "eeeeeeee" 30 rfl

/-- Claim C6: when the child terminates naturally within the budget,
run_preview returns the out/err dictionary holding the captured streams
(the shape the specification calls status ok, with no error key) and the
exit status has been captured into proc.returncode; the exit code is
arbitrary here, so a non-zero exit yields the same ok-shaped result rather
than any supervisor failure. -/
theorem run_preview_natural_completion_ok_result
    (w : World) (env : Env) (img dir rid : String) (t : Nat)
    (hp : env.popenRaises = false) (ht : env.child.runTime ≤ t) :
    (run_preview w env img dir t rid).1
        = Except.ok [("out", env.child.out), ("err", env.child.err)] ∧
      (run_preview w env img dir t rid).2.capturedReturncode
        = some env.child.exitCode := by
  simp [run_preview, hp, ht]

/-- Witness for C6 at a concrete run whose child exits with status one. -/
theorem run_preview_natural_completion_ok_result_witness :
    (run_preview World.init ⟨false, true, ⟨1, "served", "warning", 1⟩⟩
        "node:18-alpine" "/code" 30 "ffffffff").1
        = Except.ok [("out", "served"), ("err", "warning")] ∧
      (run_preview World.init ⟨false, true, ⟨1, "served", "warning", 1⟩⟩
        "node:18-alpine" "/code" 30 "ffffffff").2.capturedReturncode = some 1 :=
  run_preview_natural_completion_ok_result World.init
    ⟨false, true, ⟨1, "served", "warning", 1⟩⟩ "node:18-alpine" "/code" "ffffffff" 30
    rfl (by decide)

/-- Claim C7, counterexample: when subprocess.Popen raises because the
docker executable cannot be spawned, the raw exception escapes run_preview
unhandled -- no structured LaunchFailed value is returned -- and the world
is untouched: the runtime was never invoked and no retry happened. -/
theorem run_preview_spawn_failure_raw_exception :
    run_preview World.init ⟨true, true, ⟨1, "", "", 0⟩⟩
        "node:18-alpine" "/code" 30 "deadbeef"
      = (Except.error (RawExc.osError "docker"), World.init) :=
  rfl

/-- Claim C7, amended: a spawn failure propagates out of run_preview as
the raw unhandled OSError; no structured LaunchFailed result exists, the
world is returned unchanged, and no retry is attempted at this layer. -/
theorem run_preview_spawn_failure_propagates
    (w : World) (env : Env) (img dir rid : String) (t : Nat)
    (hp : env.popenRaises = true) :
    run_preview w env img dir t rid
      = (Except.error (RawExc.osError "docker"), w) := by
  simp [run_preview, hp]

/-- Witness for the amended C7 theorem at a concrete input. -/
theorem run_preview_spawn_failure_propagates_witness :
    run_preview World.init ⟨true, true, ⟨5, "x", "y", 2⟩⟩
        "node:18-alpine" "/code" 10 "abababab"
      = (Except.error (RawExc.osError "docker"), World.init) :=
  run_preview_spawn_failure_propagates World.init ⟨true, true, ⟨5, "x", "y", 2⟩⟩
    "node:18-alpine" "/code" "abababab" 10 rfl

/-- Claim C8, counterexample: a run whose child writes one hundred bytes
of stdout gets all one hundred back in the result, untruncated and with no
truncated flag anywhere in the returned dictionary; no configured byte
limit is applied. -/
theorem run_preview_large_output_not_truncated :
    (run_preview World.init
        ⟨false, true, ⟨1, String.mk (List.replicate 100 'a'), "", 0⟩⟩
        "node:18-alpine" "/code" 30 "deadbeef").1
      = Except.ok [("out", String.mk (List.replicate 100 'a')), ("err", "")] ∧
    (String.mk (List.replicate 100 'a')).length = 100 :=
  ⟨rfl, rfl⟩

/-- Claim C8, amended: run_preview applies no cap to captured output:
whatever dictionary it returns on natural completion holds the child's
stdout and stderr streams in full, however long they are, and carries no
truncated flag. -/
theorem run_preview_output_stored_in_full
    (w : World) (env : Env) (img dir rid : String) (t : Nat) (d : ResultDict)
    (hp : env.popenRaises = false) (ht : env.child.runTime ≤ t)
    (hd : (run_preview w env img dir t rid).1 = Except.ok d) :
    List.lookup "out" d = some env.child.out ∧
      List.lookup "err" d = some env.child.err := by
  have hd2 : d = [("out", env.child.out), ("err", env.child.err)] := by
    simp [run_preview, hp, ht] at hd
    exact hd.symm
  subst hd2
  exact ⟨rfl, rfl⟩

/-- Witness for the amended C8 theorem at a concrete run. -/
theorem run_preview_output_stored_in_full_witness :
    List.lookup "out" ([("out", "payload"), ("err", "e")] : ResultDict)
        = some "payload" ∧
      List.lookup "err" ([("out", "payload"), ("err", "e")] : ResultDict)
        = some "e" :=
  run_preview_output_stored_in_full World.init ⟨false, true, ⟨2, "payload", "e", 0⟩⟩
    "node:18-alpine" "/code" "cdcdcdcd" 30 [("out", "payload"), ("err", "e")]
    rfl (by decide) rfl

/-- Claim C9: releasing a session id is idempotent -- releasing it a
second time leaves the registry exactly as the first release left it, and
releasing an id that is not active is a no-op returning the registry
unchanged. -/
theorem Registry.release_idempotent_noop (active : List String) (sid : String) :
    Registry.release (Registry.release active sid) sid
        = Registry.release active sid ∧
      (sid ∉ active → Registry.release active sid = active) := by
  constructor
  · simp [Registry.release, List.filter_filter]
  · intro h
    simp [Registry.release]
    intro a ha
    exact fun hc => h (by simpa [hc] using ha)

/-- Witness for C9 on concrete registries. -/
theorem Registry.release_idempotent_noop_witness :
    (Registry.release (Registry.release ["s1", "s2"] "s2") "s2"
        = Registry.release ["s1", "s2"] "s2") ∧
      Registry.release ["s1"] "s3" = ["s1"] :=
  ⟨(Registry.release_idempotent_noop ["s1", "s2"] "s2").1,
   (Registry.release_idempotent_noop ["s1"] "s3").2 (by decide)⟩

/-- Claim C10: every dictionary run_preview returns has exactly one of two
shapes: on natural completion the keys are exactly "out" and "err", bound
to the decoded captured streams, with no "error" key; on timeout the
single key "error" bound to "timeout", with no output keys; so the two
outcomes are distinguishable by key presence, and on the timeout path all
captured output is absent. -/
theorem run_preview_result_shape_exclusive
    (w : World) (env : Env) (img dir rid : String) (t : Nat) (d : ResultDict)
    (h : (run_preview w env img dir t rid).1 = Except.ok d) :
    (ResultDict.keys d = ["out", "err"] ∧
       d = [("out", env.child.out), ("err", env.child.err)] ∧
       List.lookup "error" d = none) ∨
    (ResultDict.keys d = ["error"] ∧ d = [("error", "timeout")] ∧
       List.lookup "out" d = none ∧ List.lookup "err" d = none) := by
  by_cases hp : env.popenRaises = true
  · simp [run_preview, hp] at h
  · rcases le_or_lt env.child.runTime t with hle | hlt
    · left
      have hd : d = [("out", env.child.out), ("err", env.child.err)] := by
        simp [run_preview, eq_false_of_ne_true hp, hle] at h
        exact h.symm
      subst hd
      exact ⟨rfl, rfl, rfl⟩
    · right
      have hd : d = [("error", "timeout")] := by
        simp [run_preview, eq_false_of_ne_true hp, Nat.not_le.mpr hlt] at h
        exact h.symm
      subst hd
      exact ⟨rfl, rfl, rfl, rfl⟩

/-- Witness for C10 at a concrete completed run. -/
theorem run_preview_result_shape_exclusive_witness :
    (ResultDict.keys [("out", "page"), ("err", "")] = ["out", "err"] ∧
       ([("out", "page"), ("err", "")] : ResultDict)
         = [("out", "page"), ("err", "")] ∧
       List.lookup "error" ([("out", "page"), ("err", "")] : ResultDict) = none) ∨
    (ResultDict.keys [("out", "page"), ("err", "")] = ["error"] ∧
       ([("out", "page"), ("err", "")] : ResultDict) = [("error", "timeout")] ∧
       List.lookup "out" ([("out", "page"), ("err", "")] : ResultDict) = none ∧
       List.lookup "err" ([("out", "page"), ("err", "")] : ResultDict) = none) :=
  run_preview_result_shape_exclusive World.init ⟨false, true, ⟨1, "page", "", 0⟩⟩
    "node:18-alpine" "/code" "fafafafa" 30 [("out", "page"), ("err", "")] rfl
